import Mathlib

/-!
Market Mind — verification of the interaction contract.

Shallow embedding of `src/market-mind/app.py`.

The program is a single-page tool: it reads an optional credential from the
process environment at start-up (`hf_token = os.getenv("HUGGINGFACE_TOKEN")`),
lazily builds one memoized sentiment pipeline
(`@st.cache_resource def load_sentiment_pipeline(): ...`), and on every
submission validates the text, runs the pipeline inside a `try`, and renders
either a validation warning, a result card plus progress bar, or an error
message.

The external dependencies (environment, Hugging Face model provider, the
pipeline call) are collected in a `World` record; the only mutable program
state — the `st.cache_resource` cache — is threaded explicitly as a
`ProcState`, which also counts how many times a pipeline was successfully
constructed. What the page shows for one submission is a list of `Event`s.
-/

namespace MarketMind

/-- One entry of the list returned by the transformers sentiment pipeline:
a dict with keys `label` and `score`.  Scores are embedded as rationals;
the program itself does no arithmetic on them. -/
structure PipelineOutput where
  label : String
  score : ℚ
deriving Repr, DecidableEq

/-- The external world the script runs against: the process environment
(`os.getenv`), the model provider (`AutoTokenizer.from_pretrained`,
`AutoModelForSequenceClassification.from_pretrained`, `pipeline(...)`), and
the inference call itself.  `T`, `M`, `H` are the (abstract) types of
tokenizers, models and pipeline handles.  Fallible Python calls are embedded
as `Except String`, the `String` being `str(e)` of the raised exception. -/
structure World (T M H : Type) where
  getenv : String → Option String
  autoTokenizerFromPretrained : String → Option String → Except String T
  autoModelFromPretrained : String → Option String → Except String M
  pipelineCtor : String → M → T → H
  callPipeline : H → String → Except String (List PipelineOutput)

variable {T M H : Type}

/-- `hf_token = os.getenv("HUGGINGFACE_TOKEN")` (app.py line 9). -/
def hf_token (w : World T M H) : Option String :=
  w.getenv "HUGGINGFACE_TOKEN"

/-- `model_name = "ProsusAI/finbert"` (app.py line 66). -/
def model_name : String := "ProsusAI/finbert"

/-- Body of `load_sentiment_pipeline` (app.py lines 64-70), without the
`@st.cache_resource` memoization: load tokenizer and model for the fixed
model name with the module-level token, then build the pipeline.  An
exception in either `from_pretrained` call propagates. -/
def load_sentiment_pipeline_body (w : World T M H) : Except String H :=
  match w.autoTokenizerFromPretrained model_name (hf_token w) with
  | Except.error e => Except.error e
  | Except.ok tokenizer =>
    match w.autoModelFromPretrained model_name (hf_token w) with
    | Except.error e => Except.error e
    | Except.ok model =>
        Except.ok (w.pipelineCtor "sentiment-analysis" model tokenizer)

/-- The mutable per-process state: the `st.cache_resource` cache for
`load_sentiment_pipeline` (the only state the script keeps between
submissions), plus an instrumentation counter of how many pipeline handles
were successfully constructed so far. -/
structure ProcState (H : Type) where
  cache : Option H
  builds : Nat
deriving Repr, DecidableEq

/-- `load_sentiment_pipeline` as called through `@st.cache_resource`: if a
handle is cached it is returned unchanged; otherwise the body runs, and on
success its result is cached (Streamlit does not cache a raising call). -/
def load_sentiment_pipeline (w : World T M H) (s : ProcState H) :
    Except String H × ProcState H :=
  match s.cache with
  | some h => (Except.ok h, s)
  | none =>
    match load_sentiment_pipeline_body w with
    | Except.ok h => (Except.ok h, { cache := some h, builds := s.builds + 1 })
    | Except.error e => (Except.error e, s)

/-- What the page renders for one submission (presentation surface kept
abstract: only the payload of each widget is recorded). -/
inductive Event where
  | warning : String → Event
  | resultCard : String → ℚ → Event
  | progressBar : ℚ → Event
  | errorMsg : String → Event
deriving Repr, DecidableEq

/-- `st.warning("Please enter some text to analyze.")` (app.py line 89). -/
def warningText : String := "Please enter some text to analyze."

/-- `st.error(f"An error occurred during analysis: {e}")` (app.py line 122). -/
def analysisErrorText (e : String) : String :=
  "An error occurred during analysis: " ++ e

/-- `str(e)` of the `IndexError` Python raises for `[][0]`, reachable when
the pipeline returns an empty list and the code takes `[0]`. -/
def indexErrorDetail : String := "list index out of range"

/-- Python's `str.strip()` with no argument: remove leading and trailing
whitespace.  Embedded over the character list so it evaluates by structural
recursion. -/
def pyStrip (s : String) : String :=
  ⟨((s.data.dropWhile Char.isWhitespace).reverse.dropWhile
      Char.isWhitespace).reverse⟩

/-- One pressed submission of `main` (app.py lines 88-122): if the input is
empty after stripping, a warning and nothing else; otherwise the pipeline is
obtained and called inside a `try`, the first element's `label` and `score`
are rendered as a result card followed by a progress bar, and any raised
exception is rendered as a single error message.  Returns the rendered
events and the new process state.

`submitLoaded` is the part of the `try` block after the pipeline handle has
been obtained: `result = sentiment_pipeline(user_input)[0]` and the
rendering of `result['label']` / `result['score']` as a card and a progress
bar, with the `except` clause turning any raised error into one
`st.error` message. -/
def submitLoaded (w : World T M H) (h : H) (s' : ProcState H)
    (user_input : String) : List Event × ProcState H :=
  match w.callPipeline h user_input with
  | Except.error e => ([Event.errorMsg (analysisErrorText e)], s')
  | Except.ok [] =>
      ([Event.errorMsg (analysisErrorText indexErrorDetail)], s')
  | Except.ok (r :: _) =>
      ([Event.resultCard r.label r.score, Event.progressBar r.score], s')

def submit (w : World T M H) (s : ProcState H) (user_input : String) :
    List Event × ProcState H :=
  if pyStrip user_input = "" then
    ([Event.warning warningText], s)
  else
    match load_sentiment_pipeline w s with
    | (Except.error e, s') => ([Event.errorMsg (analysisErrorText e)], s')
    | (Except.ok h, s') => submitLoaded w h s' user_input

/-- A sequence of submissions within one process lifetime: each submission's
events, threading the cache state. -/
def run (w : World T M H) (s : ProcState H) :
    List String → List (List Event) × ProcState H
  | [] => ([], s)
  | t :: ts =>
      ((submit w s t).1 :: (run w (submit w s t).2 ts).1,
       (run w (submit w s t).2 ts).2)

/-! ## Concrete worlds, used to evaluate the embedding on closed inputs -/

/-- A pipeline output entry as FinBERT produces them. -/
def demoTop : PipelineOutput := { label := "positive", score := 9/10 }

/-- A second, lower-ranked entry. -/
def demoSnd : PipelineOutput := { label := "neutral", score := 1/10 }

/-- A world in which every external call succeeds: no credential in the
environment, loading succeeds, and the pipeline always returns two ranked
entries. -/
def demoWorld : World Unit Unit Unit where
  getenv := fun _ => none
  autoTokenizerFromPretrained := fun _ _ => Except.ok ()
  autoModelFromPretrained := fun _ _ => Except.ok ()
  pipelineCtor := fun _ _ _ => ()
  callPipeline := fun _ _ => Except.ok [demoTop, demoSnd]

/-- A world whose inference call always raises. -/
def demoFailWorld : World Unit Unit Unit :=
  { demoWorld with callPipeline := fun _ _ => Except.error "boom" }

/-! ## Basic lemmas -/

/-- From a state holding a cached handle, the loader returns exactly that
handle and changes nothing — for every world. -/
theorem load_cached (w : World T M H) (h : H) (b : Nat) :
    load_sentiment_pipeline w { cache := some h, builds := b } =
      (Except.ok h, { cache := some h, builds := b }) := rfl

/-- The state returned by `submitLoaded` is the state it was given. -/
theorem submitLoaded_state (w : World T M H) (h : H) (s' : ProcState H)
    (t : String) : (submitLoaded w h s' t).2 = s' := by
  unfold submitLoaded
  cases hcall : w.callPipeline h t with
  | error e => rfl
  | ok out => cases out <;> rfl

/-- A submission never changes a state that already holds a cached handle. -/
theorem submit_state_fixed_of_cached (w : World T M H) (s : ProcState H)
    (t : String) (h : H) (hc : s.cache = some h) :
    (submit w s t).2 = s := by
  obtain ⟨c, b⟩ := s
  simp only at hc
  subst hc
  unfold submit
  split
  · rfl
  · simp only [load_sentiment_pipeline]
    exact submitLoaded_state w h _ t

/-- A whole run never changes a state that already holds a cached handle. -/
theorem run_state_fixed_of_cached (w : World T M H) (s : ProcState H)
    (ts : List String) (h : H) (hc : s.cache = some h) :
    (run w s ts).2 = s := by
  induction ts generalizing s with
  | nil => rfl
  | cons t ts ih =>
    simp only [run]
    have h2 := submit_state_fixed_of_cached w s t h hc
    rw [ih (submit w s t).2 (by rw [h2]; exact hc)]
    exact h2

/-- On an uncached state, a submission either leaves the state unchanged or
caches the handle the loader body constructed, bumping the build count. -/
theorem submit_state_of_uncached (w : World T M H) (s : ProcState H)
    (t : String) (hc : s.cache = none) :
    (submit w s t).2 = s ∨
      ∃ h : H, load_sentiment_pipeline_body w = Except.ok h ∧
        (submit w s t).2 = { cache := some h, builds := s.builds + 1 } := by
  obtain ⟨c, b⟩ := s
  simp only at hc
  subst hc
  unfold submit
  split
  · exact Or.inl rfl
  · simp only [load_sentiment_pipeline]
    cases hbody : load_sentiment_pipeline_body w with
    | error e => exact Or.inl rfl
    | ok h => exact Or.inr ⟨h, rfl, submitLoaded_state w h _ t⟩

/-- Every submission in a run produces exactly one event list. -/
theorem run_length (w : World T M H) (s : ProcState H) (ts : List String) :
    (run w s ts).1.length = ts.length := by
  induction ts generalizing s with
  | nil => rfl
  | cons t ts ih => simp only [run, List.length_cons, ih]

/-- Unfolding `submit` on an input that strips to the empty string. -/
theorem submit_of_empty (w : World T M H) (s : ProcState H) (t : String)
    (h : pyStrip t = "") : submit w s t = ([Event.warning warningText], s) := by
  simp [submit, h]

/-- Unfolding `submit` when the loader raises. -/
theorem submit_of_load_error (w : World T M H) (s : ProcState H) (t : String)
    (e : String) (s' : ProcState H) (hne : ¬pyStrip t = "")
    (hl : load_sentiment_pipeline w s = (Except.error e, s')) :
    submit w s t = ([Event.errorMsg (analysisErrorText e)], s') := by
  unfold submit
  rw [if_neg hne, hl]

/-- Unfolding `submit` when the loader returns a handle. -/
theorem submit_of_load_ok (w : World T M H) (s : ProcState H) (t : String)
    (h : H) (s' : ProcState H) (hne : ¬pyStrip t = "")
    (hl : load_sentiment_pipeline w s = (Except.ok h, s')) :
    submit w s t = submitLoaded w h s' t := by
  unfold submit
  rw [if_neg hne, hl]

/-- If the loader raises, the state is unchanged, nothing was cached, and
the error is the one the loader body raised. -/
theorem load_error_state (w : World T M H) (s : ProcState H) (e : String)
    (s' : ProcState H)
    (hl : load_sentiment_pipeline w s = (Except.error e, s')) :
    s' = s ∧ s.cache = none ∧
      load_sentiment_pipeline_body w = Except.error e := by
  obtain ⟨c, b⟩ := s
  cases c with
  | some h0 => simp [load_sentiment_pipeline] at hl
  | none =>
    simp only [load_sentiment_pipeline] at hl
    cases hbody : load_sentiment_pipeline_body w with
    | error e0 =>
      rw [hbody] at hl
      simp only [Prod.mk.injEq, Except.error.injEq] at hl
      obtain ⟨he, hs⟩ := hl
      exact ⟨hs.symm, rfl, congrArg Except.error he⟩
    | ok h0 => rw [hbody] at hl; simp at hl

/-- After the loader returns a handle, that handle is cached in the state it
returns: loading again from that state gives the same handle and changes
nothing. -/
theorem load_ok_cached_after (w : World T M H) (s : ProcState H) (h : H)
    (s' : ProcState H)
    (hl : load_sentiment_pipeline w s = (Except.ok h, s')) :
    s'.cache = some h ∧
      load_sentiment_pipeline w s' = (Except.ok h, s') := by
  obtain ⟨c, b⟩ := s
  cases c with
  | some h0 =>
    simp only [load_sentiment_pipeline, Prod.mk.injEq, Except.ok.injEq] at hl
    obtain ⟨hh, hs⟩ := hl
    subst hh
    subst hs
    exact ⟨rfl, rfl⟩
  | none =>
    simp only [load_sentiment_pipeline] at hl
    cases hbody : load_sentiment_pipeline_body w with
    | error e0 => rw [hbody] at hl; simp at hl
    | ok h0 =>
      rw [hbody] at hl
      simp only [Prod.mk.injEq, Except.ok.injEq] at hl
      obtain ⟨hh, hs⟩ := hl
      subst hh
      subst hs
      exact ⟨rfl, rfl⟩

/-- A result card rendered by `submitLoaded` carries exactly the label and
score of the first entry of a successful pipeline call. -/
theorem submitLoaded_card_mem (w : World T M H) (h : H) (s' : ProcState H)
    (t : String) (l : String) (sc : ℚ)
    (hmem : Event.resultCard l sc ∈ (submitLoaded w h s' t).1) :
    ∃ r rest, w.callPipeline h t = Except.ok (r :: rest) ∧
      l = r.label ∧ sc = r.score := by
  unfold submitLoaded at hmem
  cases hcall : w.callPipeline h t with
  | error e => rw [hcall] at hmem; simp at hmem
  | ok out =>
    rw [hcall] at hmem
    cases out with
    | nil => simp at hmem
    | cons r rest =>
      simp only [List.mem_cons, List.mem_singleton] at hmem
      rcases hmem with hmem | hmem | hmem
      · obtain ⟨hl, hs⟩ := Event.resultCard.inj hmem
        exact ⟨r, rest, rfl, hl, hs⟩
      · cases hmem
      · cases hmem

/-- Starting from a fresh state, a run performs at most one successful
pipeline construction. -/
theorem run_builds_le_one (w : World T M H) (s : ProcState H)
    (ts : List String) (hc : s.cache = none) (hb : s.builds = 0) :
    (run w s ts).2.builds ≤ 1 := by
  induction ts generalizing s with
  | nil => simp [run, hb]
  | cons t ts ih =>
    simp only [run]
    rcases submit_state_of_uncached w s t hc with h1 | ⟨hh, _, h2⟩
    · rw [h1]
      exact ih s hc hb
    · rw [h2, run_state_fixed_of_cached w _ ts hh rfl]
      simp [hb]

/-! ## Claims -/

/-- C2: for every submitted input that is empty or whitespace-only after
trimming, the classification pipeline is never invoked — the submission
returns the fixed validation warning and leaves the state untouched, for
every world (so neither the loader nor the inference call is consulted). -/
theorem empty_input_warns_without_pipeline (w : World T M H) (s : ProcState H)
    (t : String) (h : pyStrip t = "") :
    submit w s t = ([Event.warning warningText], s) := by
  simp [submit, h]

/-- C2 witness: a whitespace-only input yields the warning and an untouched
state, in the all-succeeding demo world. -/
theorem empty_input_warns_without_pipeline_witness :
    submit demoWorld { cache := none, builds := 0 } "   " =
      ([Event.warning warningText], { cache := none, builds := 0 }) :=
  empty_input_warns_without_pipeline demoWorld
    { cache := none, builds := 0 } "   " (by decide)

/-- C1: for every input that is non-empty after trimming, any result card
the submission renders carries a label in {positive, negative, neutral} and
a score in [0,1], provided the model provider meets its contract (spec §6:
`classify(text) -> (label, score)` with those ranges) — the handler passes
the provider's top entry through unaltered and adds no clamping of its
own. -/
theorem analyze_label_enum_score_unit (w : World T M H) (s : ProcState H)
    (t : String) (l : String) (sc : ℚ)
    (hne : ¬pyStrip t = "")
    (hcontract : ∀ (h : H) (txt : String) (out : List PipelineOutput),
        w.callPipeline h txt = Except.ok out → ∀ r ∈ out,
          (r.label = "positive" ∨ r.label = "negative" ∨ r.label = "neutral")
            ∧ 0 ≤ r.score ∧ r.score ≤ 1)
    (hmem : Event.resultCard l sc ∈ (submit w s t).1) :
    (l = "positive" ∨ l = "negative" ∨ l = "neutral") ∧
      0 ≤ sc ∧ sc ≤ 1 := by
  cases hl : load_sentiment_pipeline w s with
  | mk res s' =>
    cases res with
    | error e =>
      rw [submit_of_load_error w s t e s' hne hl] at hmem
      simp at hmem
    | ok h =>
      rw [submit_of_load_ok w s t h s' hne hl] at hmem
      obtain ⟨r, rest, hcall, hle, hse⟩ :=
        submitLoaded_card_mem w h s' t l sc hmem
      subst hle
      subst hse
      exact hcontract h t (r :: rest) hcall r (List.mem_cons_self r rest)

/-- C1 witness: in the demo world the rendered card for a concrete headline
carries label `positive` and score 9/10, inside the enum and the unit
interval. -/
theorem analyze_label_enum_score_unit_witness :
    (demoTop.label = "positive" ∨ demoTop.label = "negative" ∨
        demoTop.label = "neutral") ∧
      0 ≤ demoTop.score ∧ demoTop.score ≤ 1 :=
  analyze_label_enum_score_unit demoWorld { cache := none, builds := 0 }
    "Apple stock surges" demoTop.label demoTop.score (by decide)
    (by
      intro h txt out hok r hr
      have hout : [demoTop, demoSnd] = out := Except.ok.inj hok
      rw [← hout] at hr
      simp only [List.mem_cons, List.not_mem_nil, or_false] at hr
      rcases hr with hr | hr
      · rw [hr]
        exact ⟨Or.inl rfl, by norm_num [demoTop], by norm_num [demoTop]⟩
      · rw [hr]
        exact ⟨Or.inr (Or.inr rfl), by norm_num [demoSnd],
          by norm_num [demoSnd]⟩)
    (List.mem_cons_self _ _)

/-- C3: across any sequence of submissions in one process lifetime the
pipeline is successfully constructed at most once; a loader call that finds
a cached handle returns exactly that handle, and from that point on no run
ever replaces it or rebuilds (the state is literally unchanged). -/
theorem pipeline_constructed_at_most_once (w : World T M H)
    (ts : List String) (h : H) (b : Nat) :
    (run w { cache := none, builds := 0 } ts).2.builds ≤ 1 ∧
      load_sentiment_pipeline w { cache := some h, builds := b } =
        (Except.ok h, { cache := some h, builds := b }) ∧
      (run w { cache := some h, builds := b } ts).2 =
        { cache := some h, builds := b } :=
  ⟨run_builds_le_one w _ ts rfl rfl, rfl,
    run_state_fixed_of_cached w _ ts h rfl⟩

/-- C4: if the inference call raises, the handler catches it and renders one
user-visible error message whose text contains the raised detail, and the
process survives: the run over this and any later submissions still yields
one rendered outcome per submission. -/
theorem inference_error_caught_not_fatal (w : World T M H) (s : ProcState H)
    (t : String) (h : H) (s' : ProcState H) (e : String) (ts : List String)
    (hne : ¬pyStrip t = "")
    (hload : load_sentiment_pipeline w s = (Except.ok h, s'))
    (hfail : w.callPipeline h t = Except.error e) :
    (submit w s t).1 = [Event.errorMsg (analysisErrorText e)] ∧
      (run w s (t :: ts)).1.length = ts.length + 1 := by
  constructor
  · rw [submit_of_load_ok w s t h s' hne hload]
    unfold submitLoaded
    rw [hfail]
  · simpa using run_length w s (t :: ts)

/-- C4 witness: in the demo world whose inference raises `boom`, the
submission renders exactly the error message mentioning `boom`, and a run
with one later submission still renders two outcomes. -/
theorem inference_error_caught_not_fatal_witness :
    (submit demoFailWorld { cache := none, builds := 0 } "some text").1 =
        [Event.errorMsg (analysisErrorText "boom")] ∧
      (run demoFailWorld { cache := none, builds := 0 }
          ["some text", "more text"]).1.length = ["more text"].length + 1 :=
  inference_error_caught_not_fatal demoFailWorld
    { cache := none, builds := 0 } "some text" ()
    { cache := some (), builds := 1 } "boom" ["more text"]
    (by decide) rfl rfl

/-- C5: `analyze` is deterministic — submitting the same text again,
immediately after a first submission of it, renders exactly the same events
(in particular the same label and score). -/
theorem analyze_deterministic (w : World T M H) (s : ProcState H)
    (t : String) :
    (submit w (submit w s t).2 t).1 = (submit w s t).1 := by
  by_cases he : pyStrip t = ""
  · rw [submit_of_empty w s t he]
    exact congrArg Prod.fst (submit_of_empty w s t he)
  · cases hl : load_sentiment_pipeline w s with
    | mk res s' =>
      cases res with
      | error e =>
        obtain ⟨hs, _, _⟩ := load_error_state w s e s' hl
        rw [submit_of_load_error w s t e s' he hl]
        subst hs
        exact congrArg Prod.fst (submit_of_load_error w s' t e s' he hl)
      | ok h =>
        obtain ⟨_, hl2⟩ := load_ok_cached_after w s h s' hl
        rw [submit_of_load_ok w s t h s' he hl, submitLoaded_state w h s' t,
          submit_of_load_ok w s' t h s' he hl2]

/-- C6: on a valid input the handler renders exactly the first (top-ranked)
entry of the pipeline output — its label and its score, the latter also as
the progress bar — regardless of any further entries, with no thresholding
and no aggregation. -/
theorem top_ranked_entry_authoritative (w : World T M H) (s : ProcState H)
    (t : String) (h : H) (s' : ProcState H) (r : PipelineOutput)
    (rest : List PipelineOutput)
    (hne : ¬pyStrip t = "")
    (hload : load_sentiment_pipeline w s = (Except.ok h, s'))
    (hout : w.callPipeline h t = Except.ok (r :: rest)) :
    (submit w s t).1 =
      [Event.resultCard r.label r.score, Event.progressBar r.score] := by
  rw [submit_of_load_ok w s t h s' hne hload]
  unfold submitLoaded
  rw [hout]

/-- C6 witness: in the demo world, whose pipeline returns two ranked
entries, the rendered card and progress bar carry exactly the first entry's
label and score. -/
theorem top_ranked_entry_authoritative_witness :
    (submit demoWorld { cache := none, builds := 0 } "markets rally").1 =
      [Event.resultCard demoTop.label demoTop.score,
        Event.progressBar demoTop.score] :=
  top_ranked_entry_authoritative demoWorld { cache := none, builds := 0 }
    "markets rally" () { cache := some (), builds := 1 } demoTop [demoSnd]
    (by decide) rfl rfl

/-- C7: on a first (uncached) call the loader resolves exactly the fixed
model identifier `ProsusAI/finbert` and the credential from the
process-wide configuration key `HUGGINGFACE_TOKEN`, constructs the handle
and caches it; on a later (cached) call it returns the cached handle
unchanged — for every world, so nothing is resolved or rebuilt again. -/
theorem loader_first_call_resolves_then_caches (w : World T M H) (h : H)
    (b b' : Nat) :
    load_sentiment_pipeline w { cache := none, builds := b } =
      (match w.autoTokenizerFromPretrained "ProsusAI/finbert"
          (w.getenv "HUGGINGFACE_TOKEN") with
       | Except.error e => (Except.error e, { cache := none, builds := b })
       | Except.ok tok =>
         match w.autoModelFromPretrained "ProsusAI/finbert"
             (w.getenv "HUGGINGFACE_TOKEN") with
         | Except.error e => (Except.error e, { cache := none, builds := b })
         | Except.ok m =>
             (Except.ok (w.pipelineCtor "sentiment-analysis" m tok),
              { cache := some (w.pipelineCtor "sentiment-analysis" m tok),
                builds := b + 1 })) ∧
    load_sentiment_pipeline w { cache := some h, builds := b' } =
      (Except.ok h, { cache := some h, builds := b' }) := by
  constructor
  · unfold load_sentiment_pipeline load_sentiment_pipeline_body hf_token
      model_name
    cases htok : w.autoTokenizerFromPretrained "ProsusAI/finbert"
        (w.getenv "HUGGINGFACE_TOKEN") with
    | error e => rfl
    | ok tok =>
      cases hm : w.autoModelFromPretrained "ProsusAI/finbert"
          (w.getenv "HUGGINGFACE_TOKEN") with
      | error e => rfl
      | ok m => rfl
  · rfl

/-- C8: a submission has no effect beyond the one-time model load — either
the whole state is returned unchanged, or the state had no cached handle
yet and the only change is that the handle the loader body constructed is
now cached (one more successful build). -/
theorem submission_frame_cache_only (w : World T M H) (s : ProcState H)
    (t : String) :
    (submit w s t).2 = s ∨
      (s.cache = none ∧ ∃ h : H,
        load_sentiment_pipeline_body w = Except.ok h ∧
        (submit w s t).2 = { cache := some h, builds := s.builds + 1 }) := by
  cases hc : s.cache with
  | some h => exact Or.inl (submit_state_fixed_of_cached w s t h hc)
  | none =>
    rcases submit_state_of_uncached w s t hc with h1 | ⟨h, hb, h2⟩
    · exact Or.inl h1
    · exact Or.inr ⟨rfl, h, hb, h2⟩

/-- C9: every submission renders exactly one of three outcomes — the
validation warning (iff the stripped input is empty), one error message, or
a result card followed by its progress bar — and the three rendered shapes
are pairwise distinct, so an error path in particular renders neither a
result card nor a progress bar. -/
theorem submission_exactly_one_outcome (w : World T M H) (s : ProcState H)
    (t : String) :
    ((pyStrip t = "" ∧ (submit w s t).1 = [Event.warning warningText]) ∨
      (¬pyStrip t = "" ∧
        ∃ e, (submit w s t).1 = [Event.errorMsg (analysisErrorText e)]) ∨
      (¬pyStrip t = "" ∧ ∃ l sc, (submit w s t).1 =
          [Event.resultCard l sc, Event.progressBar sc])) ∧
    (∀ e, [Event.warning warningText] ≠
        [Event.errorMsg (analysisErrorText e)]) ∧
    (∀ l sc, [Event.warning warningText] ≠
        [Event.resultCard l sc, Event.progressBar sc]) ∧
    (∀ e l sc, [Event.errorMsg (analysisErrorText e)] ≠
        [Event.resultCard l sc, Event.progressBar sc]) := by
  refine ⟨?_, fun e => by simp, fun l sc => by simp, fun e l sc => by simp⟩
  by_cases he : pyStrip t = ""
  · exact Or.inl ⟨he, congrArg Prod.fst (submit_of_empty w s t he)⟩
  · cases hl : load_sentiment_pipeline w s with
    | mk res s' =>
      cases res with
      | error e =>
        exact Or.inr (Or.inl ⟨he, e,
          congrArg Prod.fst (submit_of_load_error w s t e s' he hl)⟩)
      | ok h =>
        cases hcall : w.callPipeline h t with
        | error e =>
          refine Or.inr (Or.inl ⟨he, e, ?_⟩)
          rw [submit_of_load_ok w s t h s' he hl]
          unfold submitLoaded
          rw [hcall]
        | ok out =>
          cases out with
          | nil =>
            refine Or.inr (Or.inl ⟨he, indexErrorDetail, ?_⟩)
            rw [submit_of_load_ok w s t h s' he hl]
            unfold submitLoaded
            rw [hcall]
          | cons r rest =>
            refine Or.inr (Or.inr ⟨he, r.label, r.score, ?_⟩)
            rw [submit_of_load_ok w s t h s' he hl]
            unfold submitLoaded
            rw [hcall]

/-- C10: when the environment has no `HUGGINGFACE_TOKEN`, the credential
resolves to `none` and the loader still attempts (and, when the provider
accepts a `none` token, completes) construction with `token = none` — a
missing credential is never rejected before the load is attempted. -/
theorem missing_token_not_rejected (w : World T M H) (b : Nat)
    (tok : T) (m : M)
    (henv : w.getenv "HUGGINGFACE_TOKEN" = none)
    (htok : w.autoTokenizerFromPretrained model_name none = Except.ok tok)
    (hm : w.autoModelFromPretrained model_name none = Except.ok m) :
    hf_token w = none ∧
      load_sentiment_pipeline w { cache := none, builds := b } =
        (Except.ok (w.pipelineCtor "sentiment-analysis" m tok),
         { cache := some (w.pipelineCtor "sentiment-analysis" m tok),
           builds := b + 1 }) := by
  have ht : hf_token w = none := henv
  refine ⟨ht, ?_⟩
  have hbody : load_sentiment_pipeline_body w =
      Except.ok (w.pipelineCtor "sentiment-analysis" m tok) := by
    unfold load_sentiment_pipeline_body
    rw [ht, htok, hm]
  simp only [load_sentiment_pipeline, hbody]

/-- C10 witness: in the demo world the environment is empty, the credential
is `none`, and the load still succeeds. -/
theorem missing_token_not_rejected_witness :
    hf_token demoWorld = none ∧
      load_sentiment_pipeline demoWorld { cache := none, builds := 0 } =
        (Except.ok (demoWorld.pipelineCtor "sentiment-analysis" () ()),
         { cache := some (demoWorld.pipelineCtor "sentiment-analysis" () ()),
           builds := 1 }) :=
  missing_token_not_rejected demoWorld 0 () () rfl rfl rfl

end MarketMind
